import Mathlib

/-!
Verification of the History Manager logic of `src/App.tsx`.

The component's state hooks (`searchQuery`, `searchHistory`, `isSearching`)
become an explicit `AppState`; each event handler becomes a function from
the state at call time to the state at completion of the handler, paired
with the list of observable external effects (toasts, keyboard dismissal,
URL launches, persistence writes, console diagnostics) it performs, in
order.  The two `Date.now()` reads made while building a new history item
are passed in as parameters `t1 t2 : Nat` (the clock may or may not advance
between them), and the outcomes of the asynchronous Launch Port
(`Linking.openURL`) and Persistence Port (`AsyncStorage.setItem`) calls are
passed in as Booleans (`true` = the promise resolved, `false` = it
rejected).  The persisted blob (`JSON.stringify` of the list) is modelled
by the list it encodes; no claim depends on the concrete serialization.
-/

/-- Mirrors the TypeScript interface SearchHistoryItem of src/App.tsx. -/
structure SearchHistoryItem where
  id : String
  query : String
  timestamp : Nat
deriving DecidableEq

/-- The three useState hooks of the App component. -/
structure AppState where
  searchQuery : String
  searchHistory : List SearchHistoryItem
  isSearching : Bool
deriving DecidableEq

/-- Toast kinds used by the component (react-native-toast-message types). -/
inductive ToastType where
  | success
  | error
  | info
deriving DecidableEq

/-- A toast notification: its type and its text1 line. -/
structure ToastMsg where
  type : ToastType
  text1 : String
deriving DecidableEq

/-- Observable external effects performed by the handlers, in order. -/
inductive Event where
  | toast (t : ToastMsg)
  | keyboardDismiss
  | openURL (url : String)
  | storageSet (key : String) (value : List SearchHistoryItem)
  | consoleError (msg : String)
deriving DecidableEq

/-- Characters that encodeURIComponent leaves unescaped:
letters, digits, and - _ . ! ~ * ( ) together with the apostrophe. -/
def isUnreservedURIChar (c : Char) : Bool :=
  (65 ≤ c.toNat && c.toNat ≤ 90) || (97 ≤ c.toNat && c.toNat ≤ 122) ||
  (48 ≤ c.toNat && c.toNat ≤ 57) ||
  c.toNat == 45 || c.toNat == 95 || c.toNat == 46 || c.toNat == 33 ||
  c.toNat == 126 || c.toNat == 42 || c.toNat == 39 || c.toNat == 40 ||
  c.toNat == 41

/-- UTF-8 bytes of a code point, as Nats below 256. -/
def utf8Bytes (n : Nat) : List Nat :=
  if n < 128 then [n]
  else if n < 2048 then [192 + n / 64, 128 + n % 64]
  else if n < 65536 then [224 + n / 4096, 128 + (n / 64) % 64, 128 + n % 64]
  else [240 + n / 262144, 128 + (n / 4096) % 64, 128 + (n / 64) % 64,
        128 + n % 64]

/-- Uppercase hexadecimal digit. -/
def hexDigit (n : Nat) : Char :=
  if n < 10 then Char.ofNat (48 + n) else Char.ofNat (55 + n)

/-- Percent-escape of one byte, e.g. 32 becomes "%20". -/
def percentByte (b : Nat) : String :=
  String.mk [Char.ofNat 37, hexDigit (b / 16), hexDigit (b % 16)]

/-- JavaScript's encodeURIComponent. -/
def encodeURIComponent (s : String) : String :=
  String.join (s.data.map (fun c =>
    if isUnreservedURIChar c then String.mk [c]
    else String.join ((utf8Bytes c.toNat).map percentByte)))

/-- The search URL built in performSearch (src/App.tsx line 66). -/
def searchUrl (text : String) : String :=
  "https://www.google.com/search?q=" ++ encodeURIComponent text

/-- Mirrors saveSearchHistory (src/App.tsx lines 45-51): attempt the
AsyncStorage.setItem write; when the write rejects, the error is caught
and logged to the console, and nothing else happens. -/
def saveSearchHistory (newHistory : List SearchHistoryItem)
    (saveOk : Bool) : List Event :=
  if saveOk then
    [Event.storageSet "searchHistory" newHistory]
  else
    [Event.storageSet "searchHistory" newHistory,
     Event.consoleError "Error saving search history:"]

/-- Mirrors performSearch (src/App.tsx lines 53-93).  `t1` is the
Date.now() read used for the new item's id, `t2` the read used for its
timestamp; `launchOk` is the outcome of Linking.openURL and `saveOk` the
outcome of the AsyncStorage write inside saveSearchHistory.  The returned
state is the state once the handler has completed (the isSearching flag is
raised at the start and lowered again in the finally block, so it is false
at completion of every non-early-return path). -/
def performSearch (st : AppState) (text : String) (t1 t2 : Nat)
    (launchOk saveOk : Bool) : AppState × List Event :=
  if text = "" then
    (st, [Event.toast ⟨ToastType.error, "Please enter a search query"⟩])
  else if launchOk then
    let newHistoryItem : SearchHistoryItem := ⟨toString t1, text, t2⟩
    let newHistory := newHistoryItem :: st.searchHistory
    ({ st with searchHistory := newHistory, searchQuery := "",
               isSearching := false },
     Event.keyboardDismiss :: Event.openURL (searchUrl text) ::
       (saveSearchHistory newHistory saveOk ++
        [Event.toast ⟨ToastType.success, "Searching..."⟩]))
  else
    ({ st with isSearching := false },
     [Event.keyboardDismiss, Event.openURL (searchUrl text),
      Event.toast ⟨ToastType.error, "Failed to open search"⟩])

/-- Mirrors handleDeleteHistory (src/App.tsx lines 103-111): filter the
entry out by id, store the result, fire-and-forget the persistence write,
and always show the info toast. -/
def handleDeleteHistory (st : AppState) (targetId : String)
    (saveOk : Bool) : AppState × List Event :=
  let newHistory := st.searchHistory.filter (fun item => item.id != targetId)
  ({ st with searchHistory := newHistory },
   saveSearchHistory newHistory saveOk ++
     [Event.toast ⟨ToastType.info, "Search history item deleted"⟩])

/-- Mirrors handleDeleteAll (src/App.tsx lines 113-120). -/
def handleDeleteAll (st : AppState) (saveOk : Bool) :
    AppState × List Event :=
  ({ st with searchHistory := [] },
   saveSearchHistory [] saveOk ++
     [Event.toast ⟨ToastType.info, "All search history cleared"⟩])

/-- C1: the claim says ids are unique even when two entries are created at
the same clock instant.  The code derives the id from Date.now() alone
(src/App.tsx line 71), so two successful searches whose clock reads all
return the same millisecond value 1000 produce two entries that both carry
id "1000": the id list of the resulting history is not Nodup.  This
evaluates the embedded code at that failing input. -/
theorem c1_duplicate_id_at_same_instant :
    ¬ (((performSearch
          (performSearch ⟨"", [], false⟩ "cats" 1000 1000 true true).1
          "dogs" 1000 1000 true true).1.searchHistory.map
            SearchHistoryItem.id).Nodup) := by
  decide

/-- C2: for every non-empty query, a performSearch in which the Launch
Port succeeds grows the history by exactly one, puts the new entry at
index 0 with its query field equal to the submitted text, and keeps the
previous entries after it unchanged and in order. -/
theorem c2_submit_success_prepends (st : AppState) (text : String)
    (ht : text ≠ "") (t1 t2 : Nat) (saveOk : Bool) :
    (performSearch st text t1 t2 true saveOk).1.searchHistory.length
        = st.searchHistory.length + 1 ∧
    (performSearch st text t1 t2 true saveOk).1.searchHistory.head?
        = some ⟨toString t1, text, t2⟩ ∧
    (performSearch st text t1 t2 true saveOk).1.searchHistory.tail
        = st.searchHistory := by
  simp [performSearch, ht]

/-- Witness for c2_submit_success_prepends at st = empty, text = "cats",
t1 = 5, t2 = 5, saveOk = true. -/
theorem c2_submit_success_prepends_witness :
    (performSearch ⟨"", [], false⟩ "cats" 5 5 true true).1.searchHistory.length
        = ([] : List SearchHistoryItem).length + 1 ∧
    (performSearch ⟨"", [], false⟩ "cats" 5 5 true true).1.searchHistory.head?
        = some ⟨toString 5, "cats", 5⟩ ∧
    (performSearch ⟨"", [], false⟩ "cats" 5 5 true true).1.searchHistory.tail
        = [] :=
  c2_submit_success_prepends ⟨"", [], false⟩ "cats" (by decide) 5 5 true

/-- C4: performSearch with the empty string leaves the whole state
untouched, never launches a URL, and emits the validation-error toast. -/
theorem c4_empty_query_rejected (st : AppState) (t1 t2 : Nat)
    (launchOk saveOk : Bool) :
    (performSearch st "" t1 t2 launchOk saveOk).1 = st ∧
    (∀ url, Event.openURL url ∉ (performSearch st "" t1 t2 launchOk saveOk).2) ∧
    Event.toast ⟨ToastType.error, "Please enter a search query"⟩
        ∈ (performSearch st "" t1 t2 launchOk saveOk).2 := by
  simp [performSearch]

/-- C5: for a non-empty query, when the Launch Port rejects the history is
unchanged, a failure toast is emitted, and the busy flag is false at
completion; moreover isSearching is false at completion regardless of the
launch outcome. -/
theorem c5_launch_failure_no_mutation (st : AppState) (text : String)
    (ht : text ≠ "") (t1 t2 : Nat) (saveOk : Bool) :
    (performSearch st text t1 t2 false saveOk).1.searchHistory
        = st.searchHistory ∧
    Event.toast ⟨ToastType.error, "Failed to open search"⟩
        ∈ (performSearch st text t1 t2 false saveOk).2 ∧
    (∀ launchOk, (performSearch st text t1 t2 launchOk saveOk).1.isSearching
        = false) := by
  refine ⟨by simp [performSearch, ht], by simp [performSearch, ht], ?_⟩
  intro launchOk
  cases launchOk <;> simp [performSearch, ht]

/-- Witness for c5_launch_failure_no_mutation at st with one entry,
text = "cats", t1 = 7, t2 = 7, saveOk = true. -/
theorem c5_launch_failure_no_mutation_witness :
    (performSearch ⟨"", [⟨"1", "a", 1⟩], false⟩ "cats" 7 7 false
        true).1.searchHistory = [⟨"1", "a", 1⟩] ∧
    Event.toast ⟨ToastType.error, "Failed to open search"⟩
        ∈ (performSearch ⟨"", [⟨"1", "a", 1⟩], false⟩ "cats" 7 7 false
            true).2 ∧
    (∀ launchOk, (performSearch ⟨"", [⟨"1", "a", 1⟩], false⟩ "cats" 7 7
        launchOk true).1.isSearching = false) :=
  c5_launch_failure_no_mutation ⟨"", [⟨"1", "a", 1⟩], false⟩ "cats"
    (by decide) 7 7 true

/-- When no entry of l carries the id i, the delete filter keeps l whole. -/
theorem filter_ne_id_eq_self (l : List SearchHistoryItem) (i : String)
    (h : i ∉ l.map SearchHistoryItem.id) :
    l.filter (fun item => item.id != i) = l := by
  rw [List.filter_eq_self]
  intro e he
  simp only [bne_iff_ne, ne_eq]
  intro hcontra
  exact h (hcontra ▸ List.mem_map_of_mem SearchHistoryItem.id he)

/-- When the ids of l are pairwise distinct and i is among them, filtering
i out drops exactly one element. -/
theorem length_filter_ne_id (l : List SearchHistoryItem) (i : String)
    (hnd : (l.map SearchHistoryItem.id).Nodup)
    (hm : i ∈ l.map SearchHistoryItem.id) :
    (l.filter (fun item => item.id != i)).length + 1 = l.length := by
  induction l with
  | nil => simp at hm
  | cons a t ih =>
    simp only [List.map_cons, List.nodup_cons] at hnd
    by_cases h : a.id = i
    · subst h
      have ht : t.filter (fun item => item.id != a.id) = t :=
        filter_ne_id_eq_self t a.id hnd.1
      simp [List.filter_cons, ht]
    · have hm' : i ∈ t.map SearchHistoryItem.id := by
        simp only [List.map_cons, List.mem_cons] at hm
        rcases hm with hm | hm
        · exact absurd hm.symm h
        · exact hm
      have hkeep : (a.id != i) = true := bne_iff_ne.mpr h
      rw [List.filter_cons, if_pos hkeep, List.length_cons, List.length_cons,
        ih hnd.2 hm']

/-- C3: when the history's ids are pairwise distinct (the data-model
invariant) and targetId is present, handleDeleteHistory removes exactly
one entry, the surviving list is a sublist of the original (so relative
order is preserved), and an original entry survives exactly when its id
differs from targetId. -/
theorem c3_delete_present (st : AppState) (targetId : String)
    (saveOk : Bool)
    (hnd : (st.searchHistory.map SearchHistoryItem.id).Nodup)
    (hm : targetId ∈ st.searchHistory.map SearchHistoryItem.id) :
    (handleDeleteHistory st targetId saveOk).1.searchHistory.length + 1
        = st.searchHistory.length ∧
    (handleDeleteHistory st targetId saveOk).1.searchHistory.Sublist
        st.searchHistory ∧
    (∀ e ∈ st.searchHistory,
      (e ∈ (handleDeleteHistory st targetId saveOk).1.searchHistory
        ↔ e.id ≠ targetId)) := by
  refine ⟨length_filter_ne_id st.searchHistory targetId hnd hm,
    List.filter_sublist st.searchHistory, ?_⟩
  intro e he
  simp [handleDeleteHistory, List.mem_filter, he]

/-- Witness for c3_delete_present on a two-entry history, deleting the
entry with id "1". -/
theorem c3_delete_present_witness :
    (handleDeleteHistory ⟨"", [⟨"1", "a", 1⟩, ⟨"2", "b", 2⟩], false⟩ "1"
        true).1.searchHistory.length + 1
      = ([⟨"1", "a", 1⟩, ⟨"2", "b", 2⟩] : List SearchHistoryItem).length ∧
    (handleDeleteHistory ⟨"", [⟨"1", "a", 1⟩, ⟨"2", "b", 2⟩], false⟩ "1"
        true).1.searchHistory.Sublist [⟨"1", "a", 1⟩, ⟨"2", "b", 2⟩] ∧
    (∀ e ∈ ([⟨"1", "a", 1⟩, ⟨"2", "b", 2⟩] : List SearchHistoryItem),
      (e ∈ (handleDeleteHistory ⟨"", [⟨"1", "a", 1⟩, ⟨"2", "b", 2⟩], false⟩
          "1" true).1.searchHistory ↔ e.id ≠ "1")) :=
  c3_delete_present ⟨"", [⟨"1", "a", 1⟩, ⟨"2", "b", 2⟩], false⟩ "1" true
    (by decide) (by decide)

/-- C6: when targetId is absent from the history, handleDeleteHistory
leaves the list unchanged (hence same length and contents) and still
emits the informational toast. -/
theorem c6_delete_absent_noop (st : AppState) (targetId : String)
    (saveOk : Bool)
    (h : targetId ∉ st.searchHistory.map SearchHistoryItem.id) :
    (handleDeleteHistory st targetId saveOk).1.searchHistory
        = st.searchHistory ∧
    Event.toast ⟨ToastType.info, "Search history item deleted"⟩
        ∈ (handleDeleteHistory st targetId saveOk).2 := by
  constructor
  · simpa [handleDeleteHistory] using
      filter_ne_id_eq_self st.searchHistory targetId h
  · simp [handleDeleteHistory]

/-- Witness for c6_delete_absent_noop on a one-entry history and an id
not occurring in it. -/
theorem c6_delete_absent_noop_witness :
    (handleDeleteHistory ⟨"", [⟨"1", "a", 1⟩], false⟩ "9"
        true).1.searchHistory = [⟨"1", "a", 1⟩] ∧
    Event.toast ⟨ToastType.info, "Search history item deleted"⟩
        ∈ (handleDeleteHistory ⟨"", [⟨"1", "a", 1⟩], false⟩ "9" true).2 :=
  c6_delete_absent_noop ⟨"", [⟨"1", "a", 1⟩], false⟩ "9" true (by decide)

/-- C7: handleDeleteAll always yields the empty history, from any prior
state, and applying it twice gives the same state as applying it once. -/
theorem c7_clear_all_idempotent (st : AppState) (saveOk : Bool) :
    (handleDeleteAll st saveOk).1.searchHistory = [] ∧
    (handleDeleteAll (handleDeleteAll st saveOk).1 saveOk).1
        = (handleDeleteAll st saveOk).1 := by
  simp [handleDeleteAll]

/-- C8: for each of the three mutations run with a failing persistence
write, the failure is caught and logged to the console, the in-memory
history still takes its post-mutation value, and no error toast reaches
the user. -/
theorem c8_persist_write_failure_silent (st : AppState) (text : String)
    (ht : text ≠ "") (t1 t2 : Nat) (targetId : String) :
    ((performSearch st text t1 t2 true false).1.searchHistory
        = ⟨toString t1, text, t2⟩ :: st.searchHistory ∧
      Event.consoleError "Error saving search history:"
          ∈ (performSearch st text t1 t2 true false).2 ∧
      (∀ m, Event.toast ⟨ToastType.error, m⟩
          ∉ (performSearch st text t1 t2 true false).2)) ∧
    ((handleDeleteHistory st targetId false).1.searchHistory
        = st.searchHistory.filter (fun item => item.id != targetId) ∧
      Event.consoleError "Error saving search history:"
          ∈ (handleDeleteHistory st targetId false).2 ∧
      (∀ m, Event.toast ⟨ToastType.error, m⟩
          ∉ (handleDeleteHistory st targetId false).2)) ∧
    ((handleDeleteAll st false).1.searchHistory = [] ∧
      Event.consoleError "Error saving search history:"
          ∈ (handleDeleteAll st false).2 ∧
      (∀ m, Event.toast ⟨ToastType.error, m⟩
          ∉ (handleDeleteAll st false).2)) := by
  refine ⟨⟨?_, ?_, ?_⟩, ⟨?_, ?_, ?_⟩, ⟨?_, ?_, ?_⟩⟩ <;>
    simp [performSearch, handleDeleteHistory, handleDeleteAll,
      saveSearchHistory, ht]

/-- Witness for c8_persist_write_failure_silent at a one-entry state,
text = "cats", t1 = t2 = 9, targetId = "1". -/
theorem c8_persist_write_failure_silent_witness :
    ((performSearch ⟨"", [⟨"1", "a", 1⟩], false⟩ "cats" 9 9 true
          false).1.searchHistory
        = ⟨toString 9, "cats", 9⟩ :: [⟨"1", "a", 1⟩] ∧
      Event.consoleError "Error saving search history:"
          ∈ (performSearch ⟨"", [⟨"1", "a", 1⟩], false⟩ "cats" 9 9 true
              false).2 ∧
      (∀ m, Event.toast ⟨ToastType.error, m⟩
          ∉ (performSearch ⟨"", [⟨"1", "a", 1⟩], false⟩ "cats" 9 9 true
              false).2)) ∧
    ((handleDeleteHistory ⟨"", [⟨"1", "a", 1⟩], false⟩ "1"
          false).1.searchHistory
        = ([⟨"1", "a", 1⟩] : List SearchHistoryItem).filter
            (fun item => item.id != "1") ∧
      Event.consoleError "Error saving search history:"
          ∈ (handleDeleteHistory ⟨"", [⟨"1", "a", 1⟩], false⟩ "1" false).2 ∧
      (∀ m, Event.toast ⟨ToastType.error, m⟩
          ∉ (handleDeleteHistory ⟨"", [⟨"1", "a", 1⟩], false⟩ "1"
              false).2)) ∧
    ((handleDeleteAll ⟨"", [⟨"1", "a", 1⟩], false⟩ false).1.searchHistory
        = [] ∧
      Event.consoleError "Error saving search history:"
          ∈ (handleDeleteAll ⟨"", [⟨"1", "a", 1⟩], false⟩ false).2 ∧
      (∀ m, Event.toast ⟨ToastType.error, m⟩
          ∉ (handleDeleteAll ⟨"", [⟨"1", "a", 1⟩], false⟩ false).2)) :=
  c8_persist_write_failure_silent ⟨"", [⟨"1", "a", 1⟩], false⟩ "cats"
    (by decide) 9 9 "1"

/-- C9, counterexample: the id and the timestamp of a new entry come from
two separate Date.now() calls (src/App.tsx lines 71 and 73), so when the
clock advances between them (first read 5, second read 6) the created
entry carries id "5" and timestamp 6, and the boolean test comparing its
id with the decimal rendering of its timestamp evaluates to false. -/
theorem c9_id_not_timestamp_string :
    (performSearch ⟨"", [], false⟩ "cats" 5 6 true
        true).1.searchHistory.head? = some ⟨"5", "cats", 6⟩ ∧
    ((performSearch ⟨"", [], false⟩ "cats" 5 6 true
        true).1.searchHistory.map
          (fun e => e.id == toString e.timestamp)) = [false] :=
  ⟨by decide, by decide⟩

/-- C9 as amended: the new entry's id is exactly the decimal-string
rendering of the first millisecond clock read made during its
construction, its timestamp is the second read, and the id equals the
decimal rendering of the entry's own timestamp whenever the clock did not
advance between the two reads. -/
theorem c9_id_from_first_clock_read (st : AppState) (text : String)
    (ht : text ≠ "") (t1 t2 : Nat) (saveOk : Bool) :
    ∀ e, (performSearch st text t1 t2 true saveOk).1.searchHistory.head?
        = some e →
      e.id = toString t1 ∧ e.timestamp = t2 ∧
      (t1 = t2 → e.id = toString e.timestamp) := by
  intro e he
  simp only [performSearch, if_neg ht, if_pos rfl, if_true,
    List.head?_cons, Option.some.injEq] at he
  subst he
  refine ⟨rfl, rfl, ?_⟩
  intro h12
  simp [h12]

/-- Witness for c9_id_from_first_clock_read at text = "cats",
t1 = t2 = 5, instantiated at the concretely created head entry. -/
theorem c9_id_from_first_clock_read_witness :
    (⟨"5", "cats", 5⟩ : SearchHistoryItem).id = toString 5 ∧
    (⟨"5", "cats", 5⟩ : SearchHistoryItem).timestamp = 5 ∧
    (5 = 5 → (⟨"5", "cats", 5⟩ : SearchHistoryItem).id
        = toString (⟨"5", "cats", 5⟩ : SearchHistoryItem).timestamp) :=
  c9_id_from_first_clock_read ⟨"", [], false⟩ "cats" (by decide) 5 5 true
    ⟨"5", "cats", 5⟩ (by decide)

/-- C10: the pending query text is untouched when the query is empty and
when the Launch Port rejects, and is cleared exactly on the success
path. -/
theorem c10_query_cleared_only_on_success (st : AppState) (text : String)
    (t1 t2 : Nat) (launchOk saveOk : Bool) :
    (performSearch st "" t1 t2 launchOk saveOk).1.searchQuery
        = st.searchQuery ∧
    (text ≠ "" → (performSearch st text t1 t2 false saveOk).1.searchQuery
        = st.searchQuery) ∧
    (text ≠ "" → (performSearch st text t1 t2 true saveOk).1.searchQuery
        = "") := by
  refine ⟨by simp [performSearch], ?_, ?_⟩ <;>
    · intro ht
      simp [performSearch, ht]

/-- Witness for c10_query_cleared_only_on_success at st whose pending
text is "cats", text = "cats", t1 = t2 = 5. -/
theorem c10_query_cleared_only_on_success_witness :
    (performSearch ⟨"cats", [], false⟩ "" 5 5 true true).1.searchQuery
        = "cats" ∧
    ("cats" ≠ "" → (performSearch ⟨"cats", [], false⟩ "cats" 5 5 false
        true).1.searchQuery = "cats") ∧
    ("cats" ≠ "" → (performSearch ⟨"cats", [], false⟩ "cats" 5 5 true
        true).1.searchQuery = "") :=
  c10_query_cleared_only_on_success ⟨"cats", [], false⟩ "cats" 5 5 true true
